import Mathlib

/-!
Verification development for the snaps OpenStack test harness.

The volume-type resource creator is embedded from
`snaps/openstack/create_volume_type.py` and the Nova lookup helpers from
`snaps/openstack/utils/nova_utils.py`.  Collaborator modules of this
repository that are not part of the sources at hand
(`snaps/openstack/utils/cinder_utils.py`, `snaps/openstack/create_instance.py`,
`snaps/openstack/create_network.py`) are modelled from the specification, as
marked in the doc comment of each such definition.  Vendor SDK behaviour
(novaclient, cinderclient, neutronclient) is modelled as explicit state or
function parameters.
-/

namespace Snaps

/-! ## Volume type lifecycle (snaps/openstack/create_volume_type.py) -/

structure VolumeTypeSettings where
  name : String
  deriving DecidableEq

structure VolumeType where
  name : String
  id : Nat
  deriving DecidableEq

/-- The cinder-side cloud state: the volume types that exist, plus a counter
supplying fresh ids. -/
structure CinderCloud where
  volume_types : List VolumeType
  next_id : Nat
  deriving DecidableEq

/-- The `cinderclient.exceptions.NotFound` fault. -/
inductive CinderNotFound
  | notFound
  deriving DecidableEq

namespace cinder_utils

/-- Modelled from the spec: `cinder_utils.get_volume_type`
(snaps/openstack/utils/cinder_utils.py is not under src/) — the lookup
collaborator of the resource-creator lifecycle; finds an existing volume type
by the settings name, returning it or a null result, never creating. -/
def get_volume_type (cloud : CinderCloud) (volume_type_settings : VolumeTypeSettings) :
    Option VolumeType :=
  cloud.volume_types.find? (fun vt => vt.name == volume_type_settings.name)

/-- Modelled from the spec: `cinder_utils.create_volume_type` — the creation
collaborator; makes a fresh volume type carrying the settings name and returns
it with the updated cloud state. -/
def create_volume_type (cloud : CinderCloud) (volume_type_settings : VolumeTypeSettings) :
    VolumeType × CinderCloud :=
  let vt : VolumeType := ⟨volume_type_settings.name, cloud.next_id⟩
  (vt, ⟨cloud.volume_types ++ [vt], cloud.next_id + 1⟩)

/-- Modelled from the spec: `cinder_utils.delete_volume_type` — the deletion
collaborator; removes the given volume type, failing with the NotFound
condition when it is already absent. -/
def delete_volume_type (cloud : CinderCloud) (vt : VolumeType) :
    Except CinderNotFound CinderCloud :=
  if cloud.volume_types.any (fun v => v.id == vt.id) then
    Except.ok ⟨cloud.volume_types.filter (fun v => v.id != vt.id), cloud.next_id⟩
  else
    Except.error CinderNotFound.notFound

end cinder_utils

/-- The `OpenStackVolumeType` handle: the stored settings and the private
volume type reference (`self.__volume_type`). -/
structure OpenStackVolumeType where
  volume_type_settings : VolumeTypeSettings
  volume_type : Option VolumeType
  deriving DecidableEq

/-- `OpenStackVolumeType.__init__`: keeps the settings and sets the private
volume type reference to None. -/
def OpenStackVolumeType.construct (volume_type_settings : VolumeTypeSettings) :
    OpenStackVolumeType :=
  ⟨volume_type_settings, none⟩

/-- The lookup method of `OpenStackVolumeType` (named `initialize` in the
source): loads the existing volume type from the cloud into the handle and
returns it; never creates. -/
def OpenStackVolumeType.init_load (self : OpenStackVolumeType) (cloud : CinderCloud) :
    Option VolumeType × OpenStackVolumeType :=
  let vt := cinder_utils.get_volume_type cloud self.volume_type_settings
  (vt, ⟨self.volume_type_settings, vt⟩)

/-- `OpenStackVolumeType.create`: runs the lookup first and creates the volume
type only when the lookup left the reference empty, returning the domain
object together with the updated handle and cloud state. -/
def OpenStackVolumeType.create (self : OpenStackVolumeType) (cloud : CinderCloud) :
    Option VolumeType × OpenStackVolumeType × CinderCloud :=
  let r := self.init_load cloud
  match r.2.volume_type with
  | some vt => (some vt, r.2, cloud)
  | none =>
    let c := cinder_utils.create_volume_type cloud self.volume_type_settings
    (some c.1, ⟨self.volume_type_settings, some c.1⟩, c.2)

/-- `OpenStackVolumeType.clean`: when a volume type is tracked, tries to delete
it and swallows the NotFound fault; in every case the private reference is
cleared afterwards. -/
def OpenStackVolumeType.clean (self : OpenStackVolumeType) (cloud : CinderCloud) :
    OpenStackVolumeType × CinderCloud :=
  match self.volume_type with
  | none => (⟨self.volume_type_settings, none⟩, cloud)
  | some vt =>
    match cinder_utils.delete_volume_type cloud vt with
    | Except.ok cloud1 => (⟨self.volume_type_settings, none⟩, cloud1)
    | Except.error _ => (⟨self.volume_type_settings, none⟩, cloud)

/-- `OpenStackVolumeType.get_volume_type`: getter for the private reference. -/
def OpenStackVolumeType.get_volume_type (self : OpenStackVolumeType) : Option VolumeType :=
  self.volume_type

/-! ## Nova utility lookups (snaps/openstack/utils/nova_utils.py) -/

structure Flavor where
  name : String
  deriving DecidableEq

structure Keypair where
  name : String
  deriving DecidableEq

/-- The `novaclient.exceptions.NotFound` fault. -/
inductive NovaNotFound
  | notFound
  deriving DecidableEq

/-- An arbitrary fault from the nova SDK (`keypairs.get` may fail for any
reason; the source catches all of them). -/
inductive NovaError
  | notFound
  | clientError (msg : String)
  deriving DecidableEq

/-- The nova client as seen by the lookup helpers: the flavor list, the
keypair list, and the behaviour of the SDK call `nova.keypairs.get`, an
external collaborator that either returns a keypair or fails. -/
structure NovaClient where
  flavors : List Flavor
  keypairs : List Keypair
  keypairs_get : Keypair → Except NovaError Keypair

/-- The vendor SDK call `nova.flavors.find(name=...)`: returns the first
flavor carrying the given name or fails with NotFound. -/
def NovaClient.flavors_find (nova : NovaClient) (name : String) :
    Except NovaNotFound Flavor :=
  match nova.flavors.find? (fun f => f.name == name) with
  | some f => Except.ok f
  | none => Except.error NovaNotFound.notFound

/-- `get_flavor_by_name` from the source: delegates to `flavors.find` and
turns the NotFound fault into None. -/
def get_flavor_by_name (nova : NovaClient) (name : String) : Option Flavor :=
  match nova.flavors_find name with
  | Except.ok f => some f
  | Except.error NovaNotFound.notFound => none

/-- `keypair_exists` from the source: returns the keypair object from the SDK
get call, or None when that call fails for any reason (the source uses a bare
except clause). -/
def keypair_exists (nova : NovaClient) (keypair_obj : Keypair) : Option Keypair :=
  match nova.keypairs_get keypair_obj with
  | Except.ok kp => some kp
  | Except.error _ => none

/-- `get_keypair_by_name` from the source: walks the keypair list and returns
the first keypair whose name matches, or None. -/
def get_keypair_by_name (nova : NovaClient) (name : String) : Option Keypair :=
  nova.keypairs.find? (fun keypair => keypair.name == name)

/-! ## Instance settings (snaps/openstack/create_instance.py is not under
src/; only its unit tests are, so the settings classes are modelled from the
specification and checked against the expectations recorded in
snaps/openstack/tests/create_instance_tests.py). -/

/-- A static IP request of a port: the owning subnet and the requested
address, the address held as its 32-bit value. -/
structure IpRequest where
  subnet_name : String
  ip : Nat
  deriving DecidableEq

/-- Modelled from the spec: `PortSettings` of snaps/openstack/create_network.py
(not under src/) — a port carries its name, the owning network name and the
optional static (subnet, IP) request pairs. -/
structure PortSettings where
  name : String
  network_name : String
  ip_addrs : List IpRequest := []
  deriving DecidableEq

/-- The error raised when floating IP settings are incomplete. -/
inductive FloatingIpSettingsError
  | settingsError (msg : String)
  deriving DecidableEq

/-- The keyword arguments accepted by the `FloatingIpSettings` constructor;
an absent keyword is `none`. -/
structure FloatingIpSettingsArgs where
  name : Option String := none
  port_name : Option String := none
  port_id : Option String := none
  router_name : Option String := none
  subnet_name : Option String := none
  provisioning : Option Bool := none
  deriving DecidableEq

/-- A successfully constructed `FloatingIpSettings` object. -/
structure FloatingIpSettings where
  name : String
  port_name : Option String
  port_id : Option String
  router_name : String
  subnet_name : Option String
  provisioning : Bool
  deriving DecidableEq

/-- Modelled from the spec: the `FloatingIpSettings` constructor of
snaps/openstack/create_instance.py (not under src/) — requires a name, a
router name and exactly one of port name / port id (the two are mutually
exclusive); the provisioning flag defaults to true and the unused port
reference stays null. -/
def FloatingIpSettings.make (args : FloatingIpSettingsArgs) :
    Except FloatingIpSettingsError FloatingIpSettings :=
  match args.name, args.router_name with
  | some n, some r =>
    match args.port_name, args.port_id with
    | some pn, none =>
      Except.ok ⟨n, some pn, none, r, args.subnet_name, args.provisioning.getD true⟩
    | none, some pid =>
      Except.ok ⟨n, none, some pid, r, args.subnet_name, args.provisioning.getD true⟩
    | some _, some _ =>
      Except.error (FloatingIpSettingsError.settingsError
        "port name and port id are mutually exclusive")
    | none, none =>
      Except.error (FloatingIpSettingsError.settingsError
        "a port name or a port id is required")
  | _, _ =>
    Except.error (FloatingIpSettingsError.settingsError
      "name and router name are required")

/-- The error raised when VM instance settings are incomplete. -/
inductive VmInstanceSettingsError
  | settingsError (msg : String)
  deriving DecidableEq

/-- The keyword arguments accepted by the `VmInstanceSettings` constructor;
an absent keyword is `none` or the empty list. -/
structure VmInstanceSettingsArgs where
  name : Option String := none
  flavor : Option String := none
  port_settings : List PortSettings := []
  security_group_names : List String := []
  floating_ip_settings : List FloatingIpSettings := []
  sudo_user : Option String := none
  vm_boot_timeout : Option Nat := none
  vm_delete_timeout : Option Nat := none
  ssh_connect_timeout : Option Nat := none
  availability_zone : Option String := none
  deriving DecidableEq

/-- A successfully constructed `VmInstanceSettings` object. -/
structure VmInstanceSettings where
  name : String
  flavor : String
  port_settings : List PortSettings
  security_group_names : List String
  floating_ip_settings : List FloatingIpSettings
  sudo_user : Option String
  vm_boot_timeout : Nat
  vm_delete_timeout : Nat
  ssh_connect_timeout : Nat
  availability_zone : Option String
  deriving DecidableEq

/-- Modelled from the spec: the `VmInstanceSettings` constructor of
snaps/openstack/create_instance.py (not under src/) — name, flavor and at
least one port must be present, otherwise construction fails with a settings
error; the three timeouts default to 900, 300 and 180 seconds. -/
def VmInstanceSettings.make (args : VmInstanceSettingsArgs) :
    Except VmInstanceSettingsError VmInstanceSettings :=
  match args.name, args.flavor with
  | some n, some f =>
    if args.port_settings.isEmpty then
      Except.error (VmInstanceSettingsError.settingsError
        "at least one port is required")
    else
      Except.ok ⟨n, f, args.port_settings, args.security_group_names,
        args.floating_ip_settings, args.sudo_user,
        args.vm_boot_timeout.getD 900, args.vm_delete_timeout.getD 300,
        args.ssh_connect_timeout.getD 180, args.availability_zone⟩
  | _, _ =>
    Except.error (VmInstanceSettingsError.settingsError
      "name and flavor are required")

/-- True on the ok branch of an Except value. -/
def exceptIsOk : Except ε α → Bool
  | Except.ok _ => true
  | Except.error _ => false

/-! ## Security group association (modelled from the spec: the
`add_security_group` / `remove_security_group` methods of
`OpenStackVmInstance` in snaps/openstack/create_instance.py, not under
src/). -/

structure SecurityGroup where
  name : String
  deriving DecidableEq

/-- The cloud-side security-group state around one instance: the names of the
groups that exist in the cloud, and the names of the groups associated with
the instance. -/
structure SecGrpCloud where
  security_groups : List String
  server_groups : List String
  deriving DecidableEq

/-- Modelled from the spec: `OpenStackVmInstance.add_security_group` — returns
true when the group is already associated or becomes associated, and false,
without raising, when the referenced group no longer exists in the cloud. -/
def add_security_group (cloud : SecGrpCloud) (security_group : SecurityGroup) :
    Bool × SecGrpCloud :=
  if cloud.security_groups.contains security_group.name then
    if cloud.server_groups.contains security_group.name then
      (true, cloud)
    else
      (true, ⟨cloud.security_groups, cloud.server_groups ++ [security_group.name]⟩)
  else
    (false, cloud)

/-- Modelled from the spec: `OpenStackVmInstance.remove_security_group` —
returns true and removes the association when the group is associated with
the instance, and false, as a normal outcome, when it never was. -/
def remove_security_group (cloud : SecGrpCloud) (security_group : SecurityGroup) :
    Bool × SecGrpCloud :=
  if cloud.server_groups.contains security_group.name then
    (true, ⟨cloud.security_groups,
      cloud.server_groups.filter (fun g => g != security_group.name)⟩)
  else
    (false, cloud)

/-! ## Bounded status polling (modelled from the spec: `vm_active` of
`OpenStackVmInstance` in snaps/openstack/create_instance.py, not under
src/). -/

/-- The status the cloud reports for the instance on one poll. -/
inductive VmStatus
  | active
  | error
  | building
  deriving DecidableEq

/-- Modelled from the spec: the polling loop of `vm_active(block=True)` —
checks the reported status at a fixed interval, returns true on ACTIVE, false
on ERROR, keeps polling otherwise, and returns false when the poll budget is
spent.  `statuses k` is the status the cloud reports at the k-th poll. -/
def vm_active_poll (statuses : Nat → VmStatus) : Nat → Nat → Bool
  | _, 0 => false
  | k, fuel + 1 =>
    match statuses k with
    | VmStatus.active => true
    | VmStatus.error => false
    | VmStatus.building => vm_active_poll statuses (k + 1) fuel

/-- Modelled from the spec: the number of polls that fit in the boot timeout
at the fixed one-second cadence, with the final check after the deadline. -/
def poll_budget (vm_boot_timeout : Nat) : Nat :=
  vm_boot_timeout + 1

/-- Modelled from the spec: `vm_active(block=True)` — polls from the start,
bounded by the settings boot timeout. -/
def vm_active_block (statuses : Nat → VmStatus) (vm_boot_timeout : Nat) : Bool :=
  vm_active_poll statuses 0 (poll_budget vm_boot_timeout)

/-! ## Static port IPs (modelled from the spec: the port-creation phase of
`OpenStackVmInstance.create` and `get_port_ip`, with the cloud-side CIDR
check of neutron). -/

/-- The 32-bit value of a dotted-quad IPv4 address. -/
def ipv4 (a b c d : Nat) : Nat :=
  ((a * 256 + b) * 256 + c) * 256 + d

/-- CIDR membership: the address and the base agree on the first `mlen`
bits. -/
def in_cidr (ip base mlen : Nat) : Bool :=
  ip / 2 ^ (32 - mlen) == base / 2 ^ (32 - mlen)

/-- A subnet as the cloud knows it: its name and its CIDR. -/
structure SubnetModel where
  name : String
  base : Nat
  mlen : Nat
  deriving DecidableEq

/-- A created port: its name and its fixed (subnet name, IP) bindings. -/
structure PortObj where
  name : String
  fixed_ips : List (String × Nat)
  deriving DecidableEq

/-- The neutron faults the port phase can surface. -/
inductive NeutronError
  | invalidIpForSubnetClient
  | subnetNotFound
  deriving DecidableEq

/-- Modelled from the spec: the cloud collaborator validation of static IP
requests — a request whose IP lies outside the named subnet CIDR is rejected
with InvalidIpForSubnetClient; otherwise the fixed bindings are exactly the
requested ones. -/
def check_ip_requests (subnets : List SubnetModel) :
    List IpRequest → Except NeutronError (List (String × Nat))
  | [] => Except.ok []
  | r :: rest =>
    match subnets.find? (fun s => s.name == r.subnet_name) with
    | none => Except.error NeutronError.subnetNotFound
    | some s =>
      if in_cidr r.ip s.base s.mlen then
        match check_ip_requests subnets rest with
        | Except.ok acc => Except.ok ((r.subnet_name, r.ip) :: acc)
        | Except.error e => Except.error e
      else
        Except.error NeutronError.invalidIpForSubnetClient

/-- Modelled from the spec: the cloud-side `create_port` call — creates the
port with exactly the requested fixed IPs, or fails with the CIDR fault. -/
def neutron_create_port (subnets : List SubnetModel) (ps : PortSettings) :
    Except NeutronError PortObj :=
  match check_ip_requests subnets ps.ip_addrs with
  | Except.ok fixed => Except.ok ⟨ps.name, fixed⟩
  | Except.error e => Except.error e

/-- Modelled from the spec: the port-creation phase of
`OpenStackVmInstance.create` — submits each port settings entry, in list
order, to the cloud collaborator with no client-side pre-validation,
propagating any cloud error unchanged. -/
def create_ports (subnets : List SubnetModel) :
    List PortSettings → Except NeutronError (List PortObj)
  | [] => Except.ok []
  | ps :: rest =>
    match neutron_create_port subnets ps with
    | Except.error e => Except.error e
    | Except.ok p =>
      match create_ports subnets rest with
      | Except.ok others => Except.ok (p :: others)
      | Except.error e => Except.error e

/-- Modelled from the spec: `OpenStackVmInstance.get_port_ip(port_name,
subnet_name)` — the IP bound to the named port on the named subnet, or a null
result when the binding does not exist. -/
def get_port_ip (ports : List PortObj) (port_name subnet_name : String) :
    Option Nat :=
  match ports.find? (fun p => p.name == port_name) with
  | none => none
  | some p => Option.map Prod.snd (p.fixed_ips.find? (fun q => q.1 == subnet_name))

/-! ## Helper lemmas -/

/-- `create` on a fresh handle reduces to a case split on the lookup. -/
lemma OpenStackVolumeType.create_construct_eq (s : VolumeTypeSettings) (cloud : CinderCloud) :
    (OpenStackVolumeType.construct s).create cloud =
      match cinder_utils.get_volume_type cloud s with
      | some vt => (some vt, ⟨s, some vt⟩, cloud)
      | none =>
        (some ⟨s.name, cloud.next_id⟩, ⟨s, some ⟨s.name, cloud.next_id⟩⟩,
          ⟨cloud.volume_types ++ [⟨s.name, cloud.next_id⟩], cloud.next_id + 1⟩) := by
  cases h : cinder_utils.get_volume_type cloud s with
  | none =>
    simp [OpenStackVolumeType.create, OpenStackVolumeType.init_load,
      OpenStackVolumeType.construct, cinder_utils.create_volume_type, h]
  | some vt =>
    simp [OpenStackVolumeType.create, OpenStackVolumeType.init_load,
      OpenStackVolumeType.construct, h]

/-- After a creation for settings the cloud did not know, the lookup finds the
freshly created volume type. -/
lemma get_volume_type_after_create (s : VolumeTypeSettings) (cloud : CinderCloud)
    (h : cinder_utils.get_volume_type cloud s = none) :
    cinder_utils.get_volume_type
      ⟨cloud.volume_types ++ [⟨s.name, cloud.next_id⟩], cloud.next_id + 1⟩ s =
      some ⟨s.name, cloud.next_id⟩ := by
  unfold cinder_utils.get_volume_type at h ⊢
  simp [List.find?_append, h]

/-- `clean` always leaves the handle with an empty reference. -/
lemma OpenStackVolumeType.clean_fst (st : OpenStackVolumeType) (cloud : CinderCloud) :
    (st.clean cloud).1 = ⟨st.volume_type_settings, none⟩ := by
  cases hv : st.volume_type with
  | none => simp [OpenStackVolumeType.clean, hv]
  | some vt =>
    cases hd : cinder_utils.delete_volume_type cloud vt with
    | ok c => simp [OpenStackVolumeType.clean, hv, hd]
    | error e => simp [OpenStackVolumeType.clean, hv, hd]

/-! ## Claim theorems -/

/-- Claim C1: `create()` is idempotent create-or-reuse.  It runs the lookup
first and, when a volume type with the settings name already exists, returns
that existing object with the cloud untouched; and a second handle built from
the same settings, run on the cloud left by the first `create()`, returns an
object with the same underlying id, again with the cloud untouched. -/
theorem create_is_idempotent_create_or_reuse (s : VolumeTypeSettings) (cloud : CinderCloud) :
    (∀ vt, cinder_utils.get_volume_type cloud s = some vt →
      (OpenStackVolumeType.construct s).create cloud = (some vt, ⟨s, some vt⟩, cloud)) ∧
    Option.map VolumeType.id
        ((OpenStackVolumeType.construct s).create
          ((OpenStackVolumeType.construct s).create cloud).2.2).1 =
      Option.map VolumeType.id ((OpenStackVolumeType.construct s).create cloud).1 ∧
    ((OpenStackVolumeType.construct s).create
        ((OpenStackVolumeType.construct s).create cloud).2.2).2.2 =
      ((OpenStackVolumeType.construct s).create cloud).2.2 := by
  refine ⟨?_, ?_⟩
  · intro vt h
    rw [OpenStackVolumeType.create_construct_eq, h]
  · cases h : cinder_utils.get_volume_type cloud s with
    | some vt =>
      simp [OpenStackVolumeType.create_construct_eq, h]
    | none =>
      have h2 := get_volume_type_after_create s cloud h
      simp [OpenStackVolumeType.create_construct_eq, h, h2]

/-- Witness for C1 at a cloud that already holds the named volume type. -/
theorem create_is_idempotent_create_or_reuse_witness :
    (OpenStackVolumeType.construct ⟨"vt1"⟩).create ⟨[⟨"vt1", 7⟩], 8⟩ =
      (some ⟨"vt1", 7⟩, ⟨⟨"vt1"⟩, some ⟨"vt1", 7⟩⟩, ⟨[⟨"vt1", 7⟩], 8⟩) :=
  (create_is_idempotent_create_or_reuse ⟨"vt1"⟩ ⟨[⟨"vt1", 7⟩], 8⟩).1 ⟨"vt1", 7⟩ (by decide)

/-- Claim C2: `clean()` is idempotent and absence-tolerant.  Cleaning a handle
that never created anything leaves the cloud alone; cleaning twice in a row
equals cleaning once; the NotFound fault of an out-of-band deletion is
swallowed and the cloud is left alone; and after `clean()` the getter returns
a null result.  `clean` is a total function, so no fault escapes it. -/
theorem clean_is_idempotent_and_absence_tolerant (s : VolumeTypeSettings)
    (st : OpenStackVolumeType) (cloud : CinderCloud) (vt : VolumeType) :
    (OpenStackVolumeType.construct s).clean cloud = (⟨s, none⟩, cloud) ∧
    (st.clean cloud).1.clean (st.clean cloud).2 = ((st.clean cloud).1, (st.clean cloud).2) ∧
    (cinder_utils.delete_volume_type cloud vt = Except.error CinderNotFound.notFound →
      OpenStackVolumeType.clean ⟨s, some vt⟩ cloud = (⟨s, none⟩, cloud)) ∧
    (st.clean cloud).1.get_volume_type = none := by
  refine ⟨?_, ?_, ?_, ?_⟩
  · simp [OpenStackVolumeType.clean, OpenStackVolumeType.construct]
  · rw [OpenStackVolumeType.clean_fst]
    simp [OpenStackVolumeType.clean]
  · intro h
    simp [OpenStackVolumeType.clean, h]
  · rw [OpenStackVolumeType.clean_fst]
    rfl

/-- Witness for C2: cleaning a handle whose volume type is already gone from
the cloud swallows the NotFound fault and clears the reference. -/
theorem clean_is_idempotent_and_absence_tolerant_witness :
    OpenStackVolumeType.clean ⟨⟨"vt1"⟩, some ⟨"vt1", 3⟩⟩ ⟨[], 0⟩ = (⟨⟨"vt1"⟩, none⟩, ⟨[], 0⟩) :=
  (clean_is_idempotent_and_absence_tolerant ⟨"vt1"⟩ (OpenStackVolumeType.construct ⟨"vt1"⟩)
    ⟨[], 0⟩ ⟨"vt1", 3⟩).2.2.1 rfl

/-- Claim C10: the nova lookup helpers signal absence with a null result
rather than a fault: `get_flavor_by_name` returns None when no flavor carries
the name, `get_keypair_by_name` returns None when no keypair carries the name,
and `keypair_exists` returns None whenever the SDK get call fails. -/
theorem lookup_helpers_signal_absence_with_none (nova : NovaClient) (name : String)
    (kp : Keypair) (e : NovaError) :
    ((∀ f ∈ nova.flavors, f.name ≠ name) → get_flavor_by_name nova name = none) ∧
    ((∀ k ∈ nova.keypairs, k.name ≠ name) → get_keypair_by_name nova name = none) ∧
    (nova.keypairs_get kp = Except.error e → keypair_exists nova kp = none) := by
  refine ⟨?_, ?_, ?_⟩
  · intro h
    have hf : nova.flavors.find? (fun f => f.name == name) = none := by
      rw [List.find?_eq_none]
      intro x hx
      simpa using h x hx
    simp [get_flavor_by_name, NovaClient.flavors_find, hf]
  · intro h
    have hf : nova.keypairs.find? (fun keypair => keypair.name == name) = none := by
      rw [List.find?_eq_none]
      intro x hx
      simpa using h x hx
    simp [get_keypair_by_name, hf]
  · intro h
    simp [keypair_exists, h]

/-- Witness for C10 on a client with one flavor, one keypair and a failing
SDK get call. -/
theorem lookup_helpers_signal_absence_with_none_witness :
    get_flavor_by_name
        ⟨[⟨"m1.small"⟩], [⟨"kp1"⟩], fun _ => Except.error NovaError.notFound⟩
        "m1.large" = none ∧
    get_keypair_by_name
        ⟨[⟨"m1.small"⟩], [⟨"kp1"⟩], fun _ => Except.error NovaError.notFound⟩
        "kp2" = none ∧
    keypair_exists
        ⟨[⟨"m1.small"⟩], [⟨"kp1"⟩], fun _ => Except.error NovaError.notFound⟩
        ⟨"kp1"⟩ = none :=
  ⟨(lookup_helpers_signal_absence_with_none
      ⟨[⟨"m1.small"⟩], [⟨"kp1"⟩], fun _ => Except.error NovaError.notFound⟩
      "m1.large" ⟨"kp1"⟩ NovaError.notFound).1 (by decide),
   (lookup_helpers_signal_absence_with_none
      ⟨[⟨"m1.small"⟩], [⟨"kp1"⟩], fun _ => Except.error NovaError.notFound⟩
      "kp2" ⟨"kp1"⟩ NovaError.notFound).2.1 (by decide),
   (lookup_helpers_signal_absence_with_none
      ⟨[⟨"m1.small"⟩], [⟨"kp1"⟩], fun _ => Except.error NovaError.notFound⟩
      "kp2" ⟨"kp1"⟩ NovaError.notFound).2.2 rfl⟩

/-- Claim C3: `VmInstanceSettings` construction succeeds exactly when a name,
a flavor and at least one port are supplied; with any of the three missing —
covering no arguments, the empty configuration, name only, and name with
flavor only — it fails with a `VmInstanceSettingsError` at construction
time. -/
theorem instance_settings_require_name_flavor_port (args : VmInstanceSettingsArgs) :
    exceptIsOk (VmInstanceSettings.make args) =
      (args.name.isSome && args.flavor.isSome && !args.port_settings.isEmpty) := by
  cases hn : args.name with
  | none =>
    cases hf : args.flavor <;> simp [VmInstanceSettings.make, exceptIsOk, hn, hf]
  | some n =>
    cases hf : args.flavor with
    | none => simp [VmInstanceSettings.make, exceptIsOk, hn, hf]
    | some f =>
      cases hp : args.port_settings.isEmpty <;>
        simp [VmInstanceSettings.make, exceptIsOk, hn, hf, hp]

/-- Claim C9: whenever `VmInstanceSettings` construction succeeds, each of the
three timeouts equals the supplied value when one was given and its fixed
default otherwise — 900 seconds for boot, 300 for delete, 180 for SSH connect
— so each is independently overridable. -/
theorem instance_settings_timeout_defaults (args : VmInstanceSettingsArgs)
    (s : VmInstanceSettings) (h : VmInstanceSettings.make args = Except.ok s) :
    s.vm_boot_timeout = args.vm_boot_timeout.getD 900 ∧
    s.vm_delete_timeout = args.vm_delete_timeout.getD 300 ∧
    s.ssh_connect_timeout = args.ssh_connect_timeout.getD 180 := by
  cases hn : args.name with
  | none => simp [VmInstanceSettings.make, hn] at h
  | some n =>
    cases hf : args.flavor with
    | none => simp [VmInstanceSettings.make, hn, hf] at h
    | some f =>
      cases hp : args.port_settings.isEmpty with
      | true => simp [VmInstanceSettings.make, hn, hf, hp] at h
      | false =>
        simp only [VmInstanceSettings.make, hn, hf, hp, Bool.false_eq_true,
          if_false, Except.ok.injEq] at h
        subst h
        simp

/-- Witness for C9: a boot-timeout override of 999 with the two other
timeouts left to their defaults. -/
theorem instance_settings_timeout_defaults_witness :
    (VmInstanceSettings.mk "foo" "bar" [⟨"foo-port", "bar-net", []⟩] [] [] none
        999 300 180 none).vm_boot_timeout = (some 999 : Option Nat).getD 900 ∧
    (VmInstanceSettings.mk "foo" "bar" [⟨"foo-port", "bar-net", []⟩] [] [] none
        999 300 180 none).vm_delete_timeout = (none : Option Nat).getD 300 ∧
    (VmInstanceSettings.mk "foo" "bar" [⟨"foo-port", "bar-net", []⟩] [] [] none
        999 300 180 none).ssh_connect_timeout = (none : Option Nat).getD 180 :=
  instance_settings_timeout_defaults
    ⟨some "foo", some "bar", [⟨"foo-port", "bar-net", []⟩], [], [], none,
      some 999, none, none, none⟩
    (VmInstanceSettings.mk "foo" "bar" [⟨"foo-port", "bar-net", []⟩] [] [] none
      999 300 180 none) rfl

/-- Claim C8: `FloatingIpSettings` construction succeeds exactly when a name,
a router name and exactly one of port name / port id are supplied — both port
references together are rejected as mutually exclusive, as is their joint
absence — and on success the provisioning flag defaults to true and the
unused port reference is null. -/
theorem floating_ip_settings_construction (args : FloatingIpSettingsArgs) :
    (exceptIsOk (FloatingIpSettings.make args) =
      (args.name.isSome && args.router_name.isSome &&
        (args.port_name.isSome != args.port_id.isSome))) ∧
    (∀ s, FloatingIpSettings.make args = Except.ok s →
      (args.provisioning = none → s.provisioning = true) ∧
      (args.port_name.isSome = true → s.port_id = none) ∧
      (args.port_id.isSome = true → s.port_name = none)) := by
  constructor
  · cases hn : args.name <;> cases hr : args.router_name <;>
      cases hpn : args.port_name <;> cases hpid : args.port_id <;>
      simp [FloatingIpSettings.make, exceptIsOk, hn, hr, hpn, hpid]
  · intro s hs
    cases hn : args.name with
    | none => simp [FloatingIpSettings.make, hn] at hs
    | some n =>
      cases hr : args.router_name with
      | none => simp [FloatingIpSettings.make, hn, hr] at hs
      | some r =>
        cases hpn : args.port_name with
        | none =>
          cases hpid : args.port_id with
          | none => simp [FloatingIpSettings.make, hn, hr, hpn, hpid] at hs
          | some pid =>
            simp only [FloatingIpSettings.make, hn, hr, hpn, hpid,
              Except.ok.injEq] at hs
            subst hs
            refine ⟨fun hpv => by simp [hpv], fun hcontra => ?_, fun _ => rfl⟩
            simp at hcontra
        | some pn =>
          cases hpid : args.port_id with
          | none =>
            simp only [FloatingIpSettings.make, hn, hr, hpn, hpid,
              Except.ok.injEq] at hs
            subst hs
            refine ⟨fun hpv => by simp [hpv], fun _ => rfl, fun hcontra => ?_⟩
            simp at hcontra
          | some pid =>
            simp [FloatingIpSettings.make, hn, hr, hpn, hpid] at hs

/-- Witness for C8: construction by port name succeeds, provisioning defaults
to true and the port id reference stays null. -/
theorem floating_ip_settings_construction_witness :
    exceptIsOk (FloatingIpSettings.make
        ⟨some "foo", some "foo-port", none, some "bar-router", none, none⟩) =
      ((some "foo" : Option String).isSome &&
        (some "bar-router" : Option String).isSome &&
        ((some "foo-port" : Option String).isSome != (none : Option String).isSome)) ∧
    (FloatingIpSettings.mk "foo" (some "foo-port") none "bar-router" none true).provisioning
        = true ∧
    (FloatingIpSettings.mk "foo" (some "foo-port") none "bar-router" none true).port_id
        = none :=
  ⟨(floating_ip_settings_construction
      ⟨some "foo", some "foo-port", none, some "bar-router", none, none⟩).1,
   ((floating_ip_settings_construction
      ⟨some "foo", some "foo-port", none, some "bar-router", none, none⟩).2
      (FloatingIpSettings.mk "foo" (some "foo-port") none "bar-router" none true) rfl).1 rfl,
   ((floating_ip_settings_construction
      ⟨some "foo", some "foo-port", none, some "bar-router", none, none⟩).2
      (FloatingIpSettings.mk "foo" (some "foo-port") none "bar-router" none true) rfl).2.1 rfl⟩

/-- Claim C4: `add_security_group` is idempotent and stale-reference
tolerant.  When the referenced group no longer exists in the cloud it returns
false and changes nothing — and being a total function it cannot raise; when
the group exists it returns true, and adding it again returns true and
changes nothing. -/
theorem add_security_group_idempotent_and_stale_tolerant (cloud : SecGrpCloud)
    (sg : SecurityGroup) :
    (cloud.security_groups.contains sg.name = false →
      add_security_group cloud sg = (false, cloud)) ∧
    (cloud.security_groups.contains sg.name = true →
      (add_security_group cloud sg).1 = true ∧
      add_security_group (add_security_group cloud sg).2 sg =
        (true, (add_security_group cloud sg).2)) := by
  constructor
  · intro h
    simp at h
    simp [add_security_group, h]
  · intro h
    simp at h
    cases hm : cloud.server_groups.contains sg.name with
    | true =>
      simp at hm
      simp [add_security_group, h, hm]
    | false =>
      simp at hm
      simp [add_security_group, h, hm]

/-- Witness for C4: on a cloud that knows group "sg1" but not a deleted group
"gone", the stale add returns false and the repeated add returns true without
further change. -/
theorem add_security_group_idempotent_and_stale_tolerant_witness :
    add_security_group ⟨["sg1"], []⟩ ⟨"gone"⟩ = (false, ⟨["sg1"], []⟩) ∧
    (add_security_group ⟨["sg1"], []⟩ ⟨"sg1"⟩).1 = true ∧
    add_security_group (add_security_group ⟨["sg1"], []⟩ ⟨"sg1"⟩).2 ⟨"sg1"⟩ =
      (true, (add_security_group ⟨["sg1"], []⟩ ⟨"sg1"⟩).2) :=
  ⟨(add_security_group_idempotent_and_stale_tolerant ⟨["sg1"], []⟩ ⟨"gone"⟩).1 (by decide),
   ((add_security_group_idempotent_and_stale_tolerant ⟨["sg1"], []⟩ ⟨"sg1"⟩).2 (by decide)).1,
   ((add_security_group_idempotent_and_stale_tolerant ⟨["sg1"], []⟩ ⟨"sg1"⟩).2 (by decide)).2⟩

/-- Claim C5: `remove_security_group` returns true when the group is
associated with the instance, after which the association list no longer
holds it; and returns false, changing nothing — a normal outcome of a total
function, not a fault — when the group was never associated. -/
theorem remove_security_group_outcomes (cloud : SecGrpCloud) (sg : SecurityGroup) :
    (cloud.server_groups.contains sg.name = true →
      (remove_security_group cloud sg).1 = true ∧
      (remove_security_group cloud sg).2.server_groups.contains sg.name = false) ∧
    (cloud.server_groups.contains sg.name = false →
      remove_security_group cloud sg = (false, cloud)) := by
  constructor
  · intro h
    simp at h
    refine ⟨by simp [remove_security_group, h], ?_⟩
    simp [remove_security_group, h]
  · intro h
    simp at h
    simp [remove_security_group, h]

/-- Witness for C5: removing an associated group succeeds and empties the
association, removing a never-associated group returns false. -/
theorem remove_security_group_outcomes_witness :
    (remove_security_group ⟨["sg1"], ["sg1"]⟩ ⟨"sg1"⟩).1 = true ∧
    (remove_security_group ⟨["sg1"], ["sg1"]⟩ ⟨"sg1"⟩).2.server_groups.contains "sg1" = false ∧
    remove_security_group ⟨["sg1"], []⟩ ⟨"sg1"⟩ = (false, ⟨["sg1"], []⟩) :=
  ⟨((remove_security_group_outcomes ⟨["sg1"], ["sg1"]⟩ ⟨"sg1"⟩).1 (by decide)).1,
   ((remove_security_group_outcomes ⟨["sg1"], ["sg1"]⟩ ⟨"sg1"⟩).1 (by decide)).2,
   (remove_security_group_outcomes ⟨["sg1"], []⟩ ⟨"sg1"⟩).2 (by decide)⟩

/-- The polling loop returns true exactly when, within its budget, a poll
reports ACTIVE with every earlier poll still building. -/
lemma vm_active_poll_true_iff (statuses : Nat → VmStatus) :
    ∀ (fuel k : Nat), vm_active_poll statuses k fuel = true ↔
      ∃ i, i < fuel ∧ statuses (k + i) = VmStatus.active ∧
        ∀ j, j < i → statuses (k + j) = VmStatus.building := by
  intro fuel
  induction fuel with
  | zero =>
    intro k
    simp [vm_active_poll]
  | succ m ih =>
    intro k
    cases hs : statuses k with
    | active =>
      constructor
      · intro _
        exact ⟨0, Nat.succ_pos m, by simpa using hs, fun j hj => absurd hj (Nat.not_lt_zero j)⟩
      · intro _
        simp [vm_active_poll, hs]
    | error =>
      constructor
      · intro habs
        simp [vm_active_poll, hs] at habs
      · rintro ⟨i, _, hact, hbld⟩
        exfalso
        cases i with
        | zero =>
          rw [Nat.add_zero, hs] at hact
          cases hact
        | succ i1 =>
          have hb := hbld 0 (Nat.succ_pos i1)
          rw [Nat.add_zero, hs] at hb
          cases hb
    | building =>
      have hstep : vm_active_poll statuses k (m + 1) = vm_active_poll statuses (k + 1) m := by
        simp [vm_active_poll, hs]
      rw [hstep, ih (k + 1)]
      constructor
      · rintro ⟨i, hi, hact, hbld⟩
        refine ⟨i + 1, by omega, ?_, ?_⟩
        · rw [show k + (i + 1) = k + 1 + i from by omega]
          exact hact
        · intro j hj
          cases j with
          | zero => simpa using hs
          | succ j1 =>
            rw [show k + (j1 + 1) = k + 1 + j1 from by omega]
            exact hbld j1 (by omega)
      · rintro ⟨i, hi, hact, hbld⟩
        cases i with
        | zero =>
          rw [Nat.add_zero, hs] at hact
          cases hact
        | succ i1 =>
          refine ⟨i1, by omega, ?_, ?_⟩
          · rw [show k + 1 + i1 = k + (i1 + 1) from by omega]
            exact hact
          · intro j hj
            rw [show k + 1 + j = k + (j + 1) from by omega]
            exact hbld (j + 1) (by omega)

/-- The polling loop looks only at polls inside its budget. -/
lemma vm_active_poll_congr (s1 s2 : Nat → VmStatus) :
    ∀ (fuel k : Nat), (∀ j, j < fuel → s1 (k + j) = s2 (k + j)) →
      vm_active_poll s1 k fuel = vm_active_poll s2 k fuel := by
  intro fuel
  induction fuel with
  | zero =>
    intro k _
    rfl
  | succ m ih =>
    intro k h
    have h0 : s1 k = s2 k := by simpa using h 0 (Nat.succ_pos m)
    simp only [vm_active_poll, h0]
    cases hs : s2 k with
    | active => simp [hs]
    | error => simp [hs]
    | building =>
      simp only [hs]
      exact ih (k + 1) (fun j hj => by
        have hh := h (j + 1) (by omega)
        rw [show k + (j + 1) = k + 1 + j from by omega] at hh
        exact hh)

/-- Claim C6: `vm_active(block=True)` terminates within the boot timeout.  It
is a total function of the status trace, its outcome is decided by the polls
inside the budget derived from the boot timeout alone, and it returns true
exactly when a poll inside that budget reports ACTIVE with every earlier poll
still building — so ERROR, or the budget running out, yields false rather
than a fault or an unbounded wait. -/
theorem vm_active_blocking_terminates_within_timeout (statuses : Nat → VmStatus) (t : Nat) :
    (vm_active_block statuses t = true ↔
      ∃ k, k < poll_budget t ∧ statuses k = VmStatus.active ∧
        ∀ j, j < k → statuses j = VmStatus.building) ∧
    (∀ s2 : Nat → VmStatus, (∀ k, k < poll_budget t → statuses k = s2 k) →
      vm_active_block statuses t = vm_active_block s2 t) := by
  constructor
  · rw [vm_active_block, vm_active_poll_true_iff statuses (poll_budget t) 0]
    constructor
    · rintro ⟨i, hi, hact, hbld⟩
      exact ⟨i, hi, by simpa using hact, fun j hj => by simpa using hbld j hj⟩
    · rintro ⟨i, hi, hact, hbld⟩
      exact ⟨i, hi, by simpa using hact, fun j hj => by simpa using hbld j hj⟩
  · intro s2 h
    exact vm_active_poll_congr statuses s2 (poll_budget t) 0 (fun j hj => by simpa using h j hj)

/-- Witness for C6: a trace that reports ACTIVE from the first poll makes the
blocking call return true inside a 10 second budget. -/
theorem vm_active_blocking_terminates_within_timeout_witness :
    vm_active_block (fun _ => VmStatus.active) 10 = true :=
  (vm_active_blocking_terminates_within_timeout (fun _ => VmStatus.active) 10).1.mpr
    ⟨0, by decide, rfl, fun j hj => absurd hj (Nat.not_lt_zero j)⟩

/-- Claim C7: for a port with one static IP request on a known subnet, when
the requested IP lies inside the subnet CIDR, port creation succeeds and
`get_port_ip` afterwards returns exactly the requested IP; when it lies
outside, the creation phase fails with the cloud InvalidIpForSubnetClient
fault, propagated unchanged by the port phase, which performs no client-side
pre-validation. -/
theorem static_ip_in_subnet_port_creation (subnets : List SubnetModel)
    (ps : PortSettings) (s : SubnetModel) (req : IpRequest)
    (hreq : ps.ip_addrs = [req])
    (hsub : subnets.find? (fun t => t.name == req.subnet_name) = some s) :
    (in_cidr req.ip s.base s.mlen = true →
      ∃ ports, create_ports subnets [ps] = Except.ok ports ∧
        get_port_ip ports ps.name req.subnet_name = some req.ip) ∧
    (in_cidr req.ip s.base s.mlen = false →
      create_ports subnets [ps] = Except.error NeutronError.invalidIpForSubnetClient) := by
  constructor
  · intro hin
    refine ⟨[⟨ps.name, [(req.subnet_name, req.ip)]⟩], ?_, ?_⟩
    · simp [create_ports, neutron_create_port, check_ip_requests, hreq, hsub, hin]
    · simp [get_port_ip, List.find?]
  · intro hout
    simp [create_ports, neutron_create_port, check_ip_requests, hreq, hsub, hout]

/-- Witness for C7 at the scenario of the spec: requesting 10.55.0.101 inside
subnet 10.55.0.0/24 binds exactly that address, requesting 10.66.0.101
outside it fails with the invalid-IP fault. -/
theorem static_ip_in_subnet_port_creation_witness :
    (∃ ports,
      create_ports [⟨"sub-1", ipv4 10 55 0 0, 24⟩]
          [⟨"p1", "net-1", [⟨"sub-1", ipv4 10 55 0 101⟩]⟩] = Except.ok ports ∧
      get_port_ip ports "p1" "sub-1" = some (ipv4 10 55 0 101)) ∧
    create_ports [⟨"sub-1", ipv4 10 55 0 0, 24⟩]
        [⟨"p1", "net-1", [⟨"sub-1", ipv4 10 66 0 101⟩]⟩] =
      Except.error NeutronError.invalidIpForSubnetClient :=
  ⟨(static_ip_in_subnet_port_creation [⟨"sub-1", ipv4 10 55 0 0, 24⟩]
      ⟨"p1", "net-1", [⟨"sub-1", ipv4 10 55 0 101⟩]⟩ ⟨"sub-1", ipv4 10 55 0 0, 24⟩
      ⟨"sub-1", ipv4 10 55 0 101⟩ rfl (by decide)).1 (by decide),
   (static_ip_in_subnet_port_creation [⟨"sub-1", ipv4 10 55 0 0, 24⟩]
      ⟨"p1", "net-1", [⟨"sub-1", ipv4 10 66 0 101⟩]⟩ ⟨"sub-1", ipv4 10 55 0 0, 24⟩
      ⟨"sub-1", ipv4 10 66 0 101⟩ rfl (by decide)).2 (by decide)⟩

end Snaps
